import Mathlib

/-!
Formal model of the quick_scope data-access layer.

This file embeds the cache-aside subsystem of the repository
(src/quickscope/data/cache.py, src/quickscope/data/models.py,
src/quickscope/data/fetcher.py, src/quickscope/config.py) as executable
Lean definitions, and proves the stated properties about them.

Modelling conventions:
* Timestamps (`datetime`) are modelled as `Int` (seconds); `datetime.now()`
  becomes an explicit `now : Int` argument to every operation that reads the
  clock.  `timedelta(seconds = e)` addition becomes integer addition.
* Python `float` fields are modelled by the abbreviation `Flt := Int`: the
  code under verification never performs arithmetic on these fields, it only
  stores and copies them, so a float is represented opaquely by its bit
  pattern.
* The DuckDB `cache` table (key VARCHAR PRIMARY KEY, value BLOB, data_type,
  timestamp, expiry_seconds) is modelled as an association list from key to
  row; the PRIMARY KEY invariant is the predicate `keysUnique`.
* Every store operation in cache.py calls `self._get_connection()` before
  entering its `try` block, so the two storage failure points behave
  differently: a failing `duckdb.connect` raises to the operation's caller
  uncaught, while a failing SQL statement (or a corrupt blob) inside the
  `try` is caught and logged.  Each operation therefore takes a
  `StorageFail` mode and returns the pair of what the caller sees (the
  return value, or the escaped exception) and the resulting table.
* pandas `DataFrame` values are modelled as `DFrame`: ordered rows of typed
  columns with nullable cells.
-/

/-- Python `float` fields, represented opaquely by their bit pattern: the
cache and codec only copy them, never compute with them. -/
abbrev Flt := Int

/-- A pandas `DataFrame` as used by the repository: an ordered table with
named columns, an index, and nullable numeric cells. -/
structure DFrame where
  columns : List String
  index : List Int
  rows : List (List (Option Flt))

/-- models.py `StockData` (price history record).  The `__post_init__`
validation (`current_price > 0`) is a construction-time check that no claim
depends on and is not modelled. -/
structure StockData where
  ticker : String
  current_price : Flt
  timestamp : Int
  history : DFrame
  volume : Int
  market_cap : Option Flt
  beta : Option Flt
  shares_outstanding : Option Int

/-- models.py `Fundamentals`. -/
structure Fundamentals where
  ticker : String
  timestamp : Int
  revenue : Option Flt
  revenue_growth : Option Flt
  gross_profit : Option Flt
  operating_income : Option Flt
  net_income : Option Flt
  eps : Option Flt
  ebitda : Option Flt
  total_assets : Option Flt
  total_liabilities : Option Flt
  total_equity : Option Flt
  cash : Option Flt
  debt : Option Flt
  current_assets : Option Flt
  current_liabilities : Option Flt
  operating_cash_flow : Option Flt
  free_cash_flow : Option Flt
  capital_expenditure : Option Flt
  pe_ratio : Option Flt
  ps_ratio : Option Flt
  pb_ratio : Option Flt
  debt_to_equity : Option Flt
  current_ratio : Option Flt
  quick_ratio : Option Flt
  roe : Option Flt
  roa : Option Flt
  profit_margin : Option Flt
  operating_margin : Option Flt
  dividend_yield : Option Flt
  payout_ratio : Option Flt
  dividend_per_share : Option Flt
  income_statement : Option DFrame
  balance_sheet : Option DFrame
  cash_flow : Option DFrame

/-- models.py `OptionContract`. -/
structure OptionContract where
  ticker : String
  contract_symbol : String
  strike : Flt
  expiration : Int
  option_type : String
  last_price : Flt
  bid : Flt
  ask : Flt
  volume : Int
  open_interest : Int
  implied_volatility : Option Flt
  delta : Option Flt
  gamma : Option Flt
  theta : Option Flt
  vega : Option Flt
  in_the_money : Bool

/-- models.py `OptionsChain`. -/
structure OptionsChain where
  ticker : String
  timestamp : Int
  expirations : List Int
  calls : List OptionContract
  puts : List OptionContract

/-- models.py `NewsItem`. -/
structure NewsItem where
  ticker : String
  title : String
  source : String
  published_at : Int
  url : Option String
  summary : Option String
  sentiment_score : Option Flt
  sentiment_label : Option String
  sentiment_confidence : Option Flt

/-- models.py `AnalystRecommendation`. -/
structure AnalystRecommendation where
  ticker : String
  date : Int
  firm : String
  rating : String
  target_price : Option Flt

/-- models.py `AnalystRatings`. -/
structure AnalystRatings where
  ticker : String
  timestamp : Int
  strong_buy : Int
  buy : Int
  hold : Int
  sell : Int
  strong_sell : Int
  mean_target_price : Option Flt
  median_target_price : Option Flt
  recommendations : List AnalystRecommendation

/-- models.py `MarketData` (the combined bundle). -/
structure MarketData where
  ticker : String
  timestamp : Int
  stock_data : Option StockData
  fundamentals : Option Fundamentals
  options_chain : Option OptionsChain
  news : List NewsItem
  analyst_ratings : Option AnalystRatings

/-- models.py `MarketData.is_complete`: only the two mandatory components
(price series and fundamentals) are consulted. -/
def MarketData.is_complete (md : MarketData) : Bool :=
  md.stock_data.isSome && md.fundamentals.isSome

/-- The closed union of record categories the data layer stores in the
cache: one constructor per supported category. -/
inductive DataRecord where
  | stock (d : StockData)
  | fund (d : Fundamentals)
  | chain (d : OptionsChain)
  | news (items : List NewsItem)
  | ratings (d : AnalystRatings)
  | market (d : MarketData)

/-- A Python object handed to `pickle.dumps`: either one of the supported
records, or an object pickle cannot serialize (e.g. holding an open file
handle), which makes encoding fail. -/
inductive PyObj where
  | record (r : DataRecord)
  | unpicklable (k : Nat)

/-- Modelled from the spec: the wire values produced by the serialization
codec (`pickle`, which is stdlib code not present under src/).  Per spec
section 4.1 the codec maps a record to an opaque byte sequence preserving
nested tabular fields, optional/absent values and lists of sub-records; we
model the byte sequence by its parse tree. -/
inductive PValue where
  | pnone : PValue
  | pbool (b : Bool) : PValue
  | pint (n : Int) : PValue
  | pstr (s : String) : PValue
  | plist (xs : List PValue) : PValue

def encInt (n : Int) : PValue := .pint n

def encStr (s : String) : PValue := .pstr s

def encBool (b : Bool) : PValue := .pbool b

def encOptInt : Option Int → PValue
  | none => .pnone
  | some n => .pint n

def encOptStr : Option String → PValue
  | none => .pnone
  | some s => .pstr s

def decInt : PValue → Option Int
  | .pint n => some n
  | _ => none

def decStr : PValue → Option String
  | .pstr s => some s
  | _ => none

def decBool : PValue → Option Bool
  | .pbool b => some b
  | _ => none

def decOptInt : PValue → Option (Option Int)
  | .pnone => some none
  | .pint n => some (some n)
  | _ => none

def decOptStr : PValue → Option (Option String)
  | .pnone => some none
  | .pstr s => some (some s)
  | _ => none

/-- Monadic bind on `Option`, written as its own function (rather than the
inlined library `Option.bind`) so that long decoder chains compile in linear
time. -/
def obind (o : Option α) (f : α → Option β) : Option β :=
  match o with
  | none => none
  | some a => f a

/-- Decode every element of a list, failing if any element fails. -/
def decodeAll (dec : PValue → Option α) : List PValue → Option (List α)
  | [] => some []
  | p :: ps =>
    match dec p, decodeAll dec ps with
    | some a, some as => some (a :: as)
    | _, _ => none

def encRow (row : List (Option Flt)) : PValue := .plist (row.map encOptInt)

def decRow : PValue → Option (List (Option Flt))
  | .plist ps => decodeAll decOptInt ps
  | _ => none

def encDF (df : DFrame) : PValue :=
  .plist [.plist (df.columns.map encStr), .plist (df.index.map encInt),
          .plist (df.rows.map encRow)]

def decDF : PValue → Option DFrame
  | .plist [.plist cs, .plist ix, .plist rs] =>
    obind (decodeAll decStr cs) fun columns =>
    obind (decodeAll decInt ix) fun index =>
    obind (decodeAll decRow rs) fun rows =>
    some ⟨columns, index, rows⟩
  | _ => none

def encOptDF : Option DFrame → PValue
  | none => .pnone
  | some df => encDF df

def decOptDF : PValue → Option (Option DFrame)
  | .pnone => some none
  | p => (decDF p).map some

def encStock (d : StockData) : PValue :=
  .plist [encStr d.ticker, encInt d.current_price, encInt d.timestamp,
          encDF d.history, encInt d.volume, encOptInt d.market_cap,
          encOptInt d.beta, encOptInt d.shares_outstanding]

def decStock : PValue → Option StockData
  | .plist [x1, x2, x3, x4, x5, x6, x7, x8] =>
    obind (decStr x1) fun ticker =>
    obind (decInt x2) fun current_price =>
    obind (decInt x3) fun timestamp =>
    obind (decDF x4) fun history =>
    obind (decInt x5) fun volume =>
    obind (decOptInt x6) fun market_cap =>
    obind (decOptInt x7) fun beta =>
    obind (decOptInt x8) fun shares_outstanding =>
    some ⟨ticker, current_price, timestamp, history, volume, market_cap,
          beta, shares_outstanding⟩
  | _ => none

def encFund (d : Fundamentals) : PValue :=
  .plist [encStr d.ticker, encInt d.timestamp, encOptInt d.revenue,
          encOptInt d.revenue_growth, encOptInt d.gross_profit,
          encOptInt d.operating_income, encOptInt d.net_income,
          encOptInt d.eps, encOptInt d.ebitda, encOptInt d.total_assets,
          encOptInt d.total_liabilities, encOptInt d.total_equity,
          encOptInt d.cash, encOptInt d.debt, encOptInt d.current_assets,
          encOptInt d.current_liabilities, encOptInt d.operating_cash_flow,
          encOptInt d.free_cash_flow, encOptInt d.capital_expenditure,
          encOptInt d.pe_ratio, encOptInt d.ps_ratio, encOptInt d.pb_ratio,
          encOptInt d.debt_to_equity, encOptInt d.current_ratio,
          encOptInt d.quick_ratio, encOptInt d.roe, encOptInt d.roa,
          encOptInt d.profit_margin, encOptInt d.operating_margin,
          encOptInt d.dividend_yield, encOptInt d.payout_ratio,
          encOptInt d.dividend_per_share, encOptDF d.income_statement,
          encOptDF d.balance_sheet, encOptDF d.cash_flow]

/-- Field-wise decoding of `Fundamentals`, separated from the list pattern
match of `decFund` to keep elaboration linear. -/
def decFundFields (x1 x2 x3 x4 x5 x6 x7 x8 x9 x10 x11 x12 x13 x14 x15 x16 x17
    x18 x19 x20 x21 x22 x23 x24 x25 x26 x27 x28 x29 x30 x31 x32 x33 x34 x35 :
    PValue) : Option Fundamentals :=
  obind (decStr x1) fun ticker =>
  obind (decInt x2) fun timestamp =>
  obind (decOptInt x3) fun revenue =>
  obind (decOptInt x4) fun revenue_growth =>
  obind (decOptInt x5) fun gross_profit =>
  obind (decOptInt x6) fun operating_income =>
  obind (decOptInt x7) fun net_income =>
  obind (decOptInt x8) fun eps =>
  obind (decOptInt x9) fun ebitda =>
  obind (decOptInt x10) fun total_assets =>
  obind (decOptInt x11) fun total_liabilities =>
  obind (decOptInt x12) fun total_equity =>
  obind (decOptInt x13) fun cash =>
  obind (decOptInt x14) fun debt =>
  obind (decOptInt x15) fun current_assets =>
  obind (decOptInt x16) fun current_liabilities =>
  obind (decOptInt x17) fun operating_cash_flow =>
  obind (decOptInt x18) fun free_cash_flow =>
  obind (decOptInt x19) fun capital_expenditure =>
  obind (decOptInt x20) fun pe_ratio =>
  obind (decOptInt x21) fun ps_ratio =>
  obind (decOptInt x22) fun pb_ratio =>
  obind (decOptInt x23) fun debt_to_equity =>
  obind (decOptInt x24) fun current_ratio =>
  obind (decOptInt x25) fun quick_ratio =>
  obind (decOptInt x26) fun roe =>
  obind (decOptInt x27) fun roa =>
  obind (decOptInt x28) fun profit_margin =>
  obind (decOptInt x29) fun operating_margin =>
  obind (decOptInt x30) fun dividend_yield =>
  obind (decOptInt x31) fun payout_ratio =>
  obind (decOptInt x32) fun dividend_per_share =>
  obind (decOptDF x33) fun income_statement =>
  obind (decOptDF x34) fun balance_sheet =>
  obind (decOptDF x35) fun cash_flow =>
  some ⟨ticker, timestamp, revenue, revenue_growth, gross_profit,
        operating_income, net_income, eps, ebitda, total_assets,
        total_liabilities, total_equity, cash, debt, current_assets,
        current_liabilities, operating_cash_flow, free_cash_flow,
        capital_expenditure, pe_ratio, ps_ratio, pb_ratio, debt_to_equity,
        current_ratio, quick_ratio, roe, roa, profit_margin,
        operating_margin, dividend_yield, payout_ratio, dividend_per_share,
        income_statement, balance_sheet, cash_flow⟩

def decFund : PValue → Option Fundamentals
  | .plist (x1 :: x2 :: x3 :: x4 :: x5 :: x6 :: x7 :: x8 :: x9 :: x10 ::
            x11 :: x12 :: x13 :: x14 :: x15 :: x16 :: x17 :: x18 :: x19 ::
            x20 :: x21 :: x22 :: x23 :: x24 :: x25 :: x26 :: x27 :: x28 ::
            x29 :: x30 :: x31 :: x32 :: x33 :: x34 :: x35 :: []) =>
    decFundFields x1 x2 x3 x4 x5 x6 x7 x8 x9 x10 x11 x12 x13 x14 x15 x16 x17
      x18 x19 x20 x21 x22 x23 x24 x25 x26 x27 x28 x29 x30 x31 x32 x33 x34 x35
  | _ => none

def encContract (d : OptionContract) : PValue :=
  .plist [encStr d.ticker, encStr d.contract_symbol, encInt d.strike,
          encInt d.expiration, encStr d.option_type, encInt d.last_price,
          encInt d.bid, encInt d.ask, encInt d.volume, encInt d.open_interest,
          encOptInt d.implied_volatility, encOptInt d.delta, encOptInt d.gamma,
          encOptInt d.theta, encOptInt d.vega, encBool d.in_the_money]

/-- Field-wise decoding of `OptionContract`, separated from the list pattern
match of `decContract` to keep elaboration linear. -/
def decContractFields (x1 x2 x3 x4 x5 x6 x7 x8 x9 x10 x11 x12 x13 x14 x15 x16 :
    PValue) : Option OptionContract :=
  obind (decStr x1) fun ticker =>
  obind (decStr x2) fun contract_symbol =>
  obind (decInt x3) fun strike =>
  obind (decInt x4) fun expiration =>
  obind (decStr x5) fun option_type =>
  obind (decInt x6) fun last_price =>
  obind (decInt x7) fun bid =>
  obind (decInt x8) fun ask =>
  obind (decInt x9) fun volume =>
  obind (decInt x10) fun open_interest =>
  obind (decOptInt x11) fun implied_volatility =>
  obind (decOptInt x12) fun delta =>
  obind (decOptInt x13) fun gamma =>
  obind (decOptInt x14) fun theta =>
  obind (decOptInt x15) fun vega =>
  obind (decBool x16) fun in_the_money =>
  some ⟨ticker, contract_symbol, strike, expiration, option_type,
        last_price, bid, ask, volume, open_interest, implied_volatility,
        delta, gamma, theta, vega, in_the_money⟩

def decContract : PValue → Option OptionContract
  | .plist [x1, x2, x3, x4, x5, x6, x7, x8, x9, x10, x11, x12, x13, x14,
            x15, x16] =>
    decContractFields x1 x2 x3 x4 x5 x6 x7 x8 x9 x10 x11 x12 x13 x14 x15 x16
  | _ => none

def encChain (d : OptionsChain) : PValue :=
  .plist [encStr d.ticker, encInt d.timestamp,
          .plist (d.expirations.map encInt), .plist (d.calls.map encContract),
          .plist (d.puts.map encContract)]

def decChain : PValue → Option OptionsChain
  | .plist [x1, x2, .plist es, .plist cs, .plist ps] =>
    obind (decStr x1) fun ticker =>
    obind (decInt x2) fun timestamp =>
    obind (decodeAll decInt es) fun expirations =>
    obind (decodeAll decContract cs) fun calls =>
    obind (decodeAll decContract ps) fun puts =>
    some ⟨ticker, timestamp, expirations, calls, puts⟩
  | _ => none

def encNewsItem (d : NewsItem) : PValue :=
  .plist [encStr d.ticker, encStr d.title, encStr d.source,
          encInt d.published_at, encOptStr d.url, encOptStr d.summary,
          encOptInt d.sentiment_score, encOptStr d.sentiment_label,
          encOptInt d.sentiment_confidence]

/-- Field-wise decoding of `NewsItem`, separated from the list pattern match
of `decNewsItem` to keep elaboration linear. -/
def decNewsItemFields (x1 x2 x3 x4 x5 x6 x7 x8 x9 : PValue) :
    Option NewsItem :=
  obind (decStr x1) fun ticker =>
  obind (decStr x2) fun title =>
  obind (decStr x3) fun source =>
  obind (decInt x4) fun published_at =>
  obind (decOptStr x5) fun url =>
  obind (decOptStr x6) fun summary =>
  obind (decOptInt x7) fun sentiment_score =>
  obind (decOptStr x8) fun sentiment_label =>
  obind (decOptInt x9) fun sentiment_confidence =>
  some ⟨ticker, title, source, published_at, url, summary, sentiment_score,
        sentiment_label, sentiment_confidence⟩

def decNewsItem : PValue → Option NewsItem
  | .plist [x1, x2, x3, x4, x5, x6, x7, x8, x9] =>
    decNewsItemFields x1 x2 x3 x4 x5 x6 x7 x8 x9
  | _ => none

def encRecommendation (d : AnalystRecommendation) : PValue :=
  .plist [encStr d.ticker, encInt d.date, encStr d.firm, encStr d.rating,
          encOptInt d.target_price]

def decRecommendation : PValue → Option AnalystRecommendation
  | .plist [x1, x2, x3, x4, x5] =>
    obind (decStr x1) fun ticker =>
    obind (decInt x2) fun date =>
    obind (decStr x3) fun firm =>
    obind (decStr x4) fun rating =>
    obind (decOptInt x5) fun target_price =>
    some ⟨ticker, date, firm, rating, target_price⟩
  | _ => none

def encRatings (d : AnalystRatings) : PValue :=
  .plist [encStr d.ticker, encInt d.timestamp, encInt d.strong_buy,
          encInt d.buy, encInt d.hold, encInt d.sell, encInt d.strong_sell,
          encOptInt d.mean_target_price, encOptInt d.median_target_price,
          .plist (d.recommendations.map encRecommendation)]

/-- Field-wise decoding of `AnalystRatings`, separated from the list pattern
match of `decRatings` to keep elaboration linear. -/
def decRatingsFields (x1 x2 x3 x4 x5 x6 x7 x8 x9 : PValue)
    (rs : List PValue) : Option AnalystRatings :=
  obind (decStr x1) fun ticker =>
  obind (decInt x2) fun timestamp =>
  obind (decInt x3) fun strong_buy =>
  obind (decInt x4) fun buy =>
  obind (decInt x5) fun hold =>
  obind (decInt x6) fun sell =>
  obind (decInt x7) fun strong_sell =>
  obind (decOptInt x8) fun mean_target_price =>
  obind (decOptInt x9) fun median_target_price =>
  obind (decodeAll decRecommendation rs) fun recommendations =>
  some ⟨ticker, timestamp, strong_buy, buy, hold, sell, strong_sell,
        mean_target_price, median_target_price, recommendations⟩

def decRatings : PValue → Option AnalystRatings
  | .plist [x1, x2, x3, x4, x5, x6, x7, x8, x9, .plist rs] =>
    decRatingsFields x1 x2 x3 x4 x5 x6 x7 x8 x9 rs
  | _ => none

def encOptStock : Option StockData → PValue
  | none => .pnone
  | some d => encStock d

def decOptStock : PValue → Option (Option StockData)
  | .pnone => some none
  | p => (decStock p).map some

def encOptFund : Option Fundamentals → PValue
  | none => .pnone
  | some d => encFund d

def decOptFund : PValue → Option (Option Fundamentals)
  | .pnone => some none
  | p => (decFund p).map some

def encOptChain : Option OptionsChain → PValue
  | none => .pnone
  | some d => encChain d

def decOptChain : PValue → Option (Option OptionsChain)
  | .pnone => some none
  | p => (decChain p).map some

def encOptRatings : Option AnalystRatings → PValue
  | none => .pnone
  | some d => encRatings d

def decOptRatings : PValue → Option (Option AnalystRatings)
  | .pnone => some none
  | p => (decRatings p).map some

def encMarket (d : MarketData) : PValue :=
  .plist [encStr d.ticker, encInt d.timestamp, encOptStock d.stock_data,
          encOptFund d.fundamentals, encOptChain d.options_chain,
          .plist (d.news.map encNewsItem), encOptRatings d.analyst_ratings]

def decMarket : PValue → Option MarketData
  | .plist [x1, x2, x3, x4, x5, .plist ns, x7] =>
    obind (decStr x1) fun ticker =>
    obind (decInt x2) fun timestamp =>
    obind (decOptStock x3) fun stock_data =>
    obind (decOptFund x4) fun fundamentals =>
    obind (decOptChain x5) fun options_chain =>
    obind (decodeAll decNewsItem ns) fun news =>
    obind (decOptRatings x7) fun analyst_ratings =>
    some ⟨ticker, timestamp, stock_data, fundamentals, options_chain, news,
          analyst_ratings⟩
  | _ => none

/-- Modelled from the spec: encoding of a supported record, tagged by its
category so that decoding is unambiguous (pickle stores the class name the
same way). -/
def encRecord : DataRecord → PValue
  | .stock d => .plist [.pstr "StockData", encStock d]
  | .fund d => .plist [.pstr "Fundamentals", encFund d]
  | .chain d => .plist [.pstr "OptionsChain", encChain d]
  | .news items => .plist [.pstr "NewsList", .plist (items.map encNewsItem)]
  | .ratings d => .plist [.pstr "AnalystRatings", encRatings d]
  | .market d => .plist [.pstr "MarketData", encMarket d]

/-- Modelled from the spec: `pickle.dumps`.  Encoding fails (raises, caught
by the caller in `Cache.set`) exactly when the object is unpicklable. -/
def dumps : PyObj → Option PValue
  | .record r => some (encRecord r)
  | .unpicklable _ => none

/-- Modelled from the spec: `pickle.loads`.  Decoding fails (raises, caught
by the caller in `Cache.get`) on any blob that is not a well-formed encoding
of a supported record — a corrupt blob degrades to a miss. -/
def loads : PValue → Option PyObj
  | .plist [.pstr tag, body] =>
    if tag = "StockData" then (decStock body).map (fun d => .record (.stock d))
    else if tag = "Fundamentals" then
      (decFund body).map (fun d => .record (.fund d))
    else if tag = "OptionsChain" then
      (decChain body).map (fun d => .record (.chain d))
    else if tag = "NewsList" then
      match body with
      | .plist ns => (decodeAll decNewsItem ns).map (fun l => .record (.news l))
      | _ => none
    else if tag = "AnalystRatings" then
      (decRatings body).map (fun d => .record (.ratings d))
    else if tag = "MarketData" then
      (decMarket body).map (fun d => .record (.market d))
    else none
  | _ => none

/-- Python `str.upper()` on the ASCII ticker strings used by the cache key
scheme. -/
def pyUpper (s : String) : String := ⟨s.data.map Char.toUpper⟩

/-- A persisted row of the DuckDB `cache` table (columns `value`,
`data_type`, `timestamp`, `expiry_seconds`); the `key` column is the
association-list key. -/
structure CacheEntry where
  value : PValue
  data_type : String
  timestamp : Int
  expiry_seconds : Int

/-- The persisted state of the `cache` table: rows keyed by the `key`
column. -/
abbrev CacheState := List (String × CacheEntry)

/-- The PRIMARY KEY constraint of the `cache` table: no two rows share a
key. -/
def keysUnique (st : CacheState) : Prop := (st.map Prod.fst).Nodup

/-- config.py `Config.PRICE_CACHE_EXPIRY` (15 minutes, in seconds). -/
def Config.PRICE_CACHE_EXPIRY : Int := 15 * 60

/-- config.py `Config.FUNDAMENTAL_CACHE_EXPIRY` (24 hours, in seconds). -/
def Config.FUNDAMENTAL_CACHE_EXPIRY : Int := 24 * 60 * 60

/-- config.py `Config.NEWS_CACHE_EXPIRY` (1 hour, in seconds). -/
def Config.NEWS_CACHE_EXPIRY : Int := 60 * 60

/-- config.py `Config.OPTIONS_CACHE_EXPIRY` (15 minutes, in seconds). -/
def Config.OPTIONS_CACHE_EXPIRY : Int := 15 * 60

/-- cache.py `Cache._make_key`: `f"{ticker.upper()}:{data_type}"`. -/
def Cache.make_key (ticker data_type : String) : String :=
  pyUpper ticker ++ ":" ++ data_type

/-- cache.py `Cache._is_expired`: `datetime.now() > timestamp +
timedelta(seconds=expiry_seconds)`, with the current time passed
explicitly. -/
def Cache.is_expired (now timestamp expiry_seconds : Int) : Bool :=
  now > timestamp + expiry_seconds

/-- cache.py `Cache._get_default_expiry`: the `expiry_map` dictionary lookup
with `Config.FUNDAMENTAL_CACHE_EXPIRY` as the `.get` fallback. -/
def Cache.get_default_expiry (data_type : String) : Int :=
  if data_type = "price" then Config.PRICE_CACHE_EXPIRY
  else if data_type = "stock_data" then Config.PRICE_CACHE_EXPIRY
  else if data_type = "fundamental" then Config.FUNDAMENTAL_CACHE_EXPIRY
  else if data_type = "fundamentals" then Config.FUNDAMENTAL_CACHE_EXPIRY
  else if data_type = "options" then Config.OPTIONS_CACHE_EXPIRY
  else if data_type = "options_chain" then Config.OPTIONS_CACHE_EXPIRY
  else if data_type = "news" then Config.NEWS_CACHE_EXPIRY
  else if data_type = "analyst_ratings" then Config.FUNDAMENTAL_CACHE_EXPIRY
  else if data_type = "market_data" then Config.PRICE_CACHE_EXPIRY
  else Config.FUNDAMENTAL_CACHE_EXPIRY

/-- The DuckDB query `SELECT ... FROM cache WHERE key = ?`: at most one row
matches because `key` is the primary key. -/
def dbLookup : CacheState → String → Option CacheEntry
  | [], _ => none
  | (k, e) :: rest, key => if k = key then some e else dbLookup rest key

/-- The DuckDB statement `INSERT OR REPLACE INTO cache ... VALUES (?...)`:
replaces the row with the same key if present, else appends a new row. -/
def insertOrReplace : CacheState → String → CacheEntry → CacheState
  | [], key, e => [(key, e)]
  | (k, e0) :: rest, key, e =>
    if k = key then (key, e) :: rest
    else (k, e0) :: insertOrReplace rest key e

/-- How the backing storage behaves during one cache operation.  Every
operation in cache.py first calls `self._get_connection()` and only then
enters its `try` block, so the two failure points differ: `connectFail` —
`duckdb.connect` raises, before the `try`, so the exception propagates to
the operation's caller uncaught; `queryFail` — the SQL statement inside the
`try` raises and the `except` handler logs it and falls through to the
operation's benign outcome; `ok` — no storage failure. -/
inductive StorageFail where
  | ok
  | connectFail
  | queryFail
deriving DecidableEq

/-- The exception `duckdb.connect` raises when the store cannot be opened;
every cache operation lets it escape to its caller. -/
structure StorageErr where
  msg : String
deriving DecidableEq

/-- cache.py `Cache.delete`: `_get_connection()` runs before the `try`
block, so an open failure raises to the caller with the table unchanged;
inside the `try`, `DELETE FROM cache WHERE key = ?` removes the row, and a
raising statement is caught and logged.  The first component is what the
caller sees (the returned `None`, or the escaped exception), the second the
resulting table. -/
def Cache.delete (f : StorageFail) (st : CacheState)
    (ticker data_type : String) : Except StorageErr Unit × CacheState :=
  match f with
  | .connectFail => (.error ⟨"cannot open"⟩, st)
  | .queryFail => (.ok (), st)
  | .ok =>
    (.ok (), st.filter (fun r => !(r.1 == Cache.make_key ticker data_type)))

/-- cache.py `Cache.get`: `_get_connection()` runs before the `try` block,
so an open failure raises to the caller; inside the `try`, look the key up
(miss returns `None`), delete-and-miss when expired, else unpickle the
blob; a raising query or a corrupt blob is caught and degrades to `None`.
`fdel` is the storage behaviour of the inner `self.delete` call: its own
failures (connect or query) are caught — the connect one by this `get`'s
handler — leaving the row in place while `get` still returns `None`, which
is exactly the second component of `Cache.delete fdel`. -/
def Cache.get (f fdel : StorageFail) (now : Int) (st : CacheState)
    (ticker data_type : String) :
    Except StorageErr (Option PyObj) × CacheState :=
  match f with
  | .connectFail => (.error ⟨"cannot open"⟩, st)
  | .queryFail => (.ok none, st)
  | .ok =>
    match dbLookup st (Cache.make_key ticker data_type) with
    | none => (.ok none, st)
    | some e =>
      if Cache.is_expired now e.timestamp e.expiry_seconds then
        (.ok none, (Cache.delete fdel st ticker data_type).2)
      else
        match loads e.value with
        | none => (.ok none, st)
        | some data => (.ok (some data), st)

/-- cache.py `Cache.set`: resolve the TTL (explicit argument wins, else the
category default) and serialize, both before any connection is made —
encoding failure abandons the write and returns normally; then
`_get_connection()` runs before the `try` block, so with an encodable
payload an open failure raises to the caller; inside the `try`,
`INSERT OR REPLACE` writes the row with the current timestamp, and a
raising statement is caught and logged with the table unchanged. -/
def Cache.set (f : StorageFail) (now : Int) (st : CacheState)
    (ticker data_type : String) (data : PyObj)
    (expiry_seconds : Option Int) : Except StorageErr Unit × CacheState :=
  let expiry := expiry_seconds.getD (Cache.get_default_expiry data_type)
  match dumps data with
  | none => (.ok (), st)
  | some blob =>
    match f with
    | .connectFail => (.error ⟨"cannot open"⟩, st)
    | .queryFail => (.ok (), st)
    | .ok =>
      (.ok (), insertOrReplace st (Cache.make_key ticker data_type)
        ⟨blob, data_type, now, expiry⟩)

/-- cache.py `Cache.clear_ticker`: `_get_connection()` runs before the
`try` block (open failure raises); inside the `try`,
`DELETE FROM cache WHERE key LIKE ?` with the pattern
`f"{ticker.upper()}:%"` — `LIKE` with a single trailing `%` is prefix
matching (tickers containing SQL wildcard characters are out of scope) —
and a raising statement is caught and logged. -/
def Cache.clear_ticker (f : StorageFail) (st : CacheState) (ticker : String) :
    Except StorageErr Unit × CacheState :=
  match f with
  | .connectFail => (.error ⟨"cannot open"⟩, st)
  | .queryFail => (.ok (), st)
  | .ok =>
    (.ok (), st.filter
      (fun r => !((pyUpper ticker ++ ":").data.isPrefixOf r.1.data)))

/-- cache.py `Cache.clear_all`: `_get_connection()` before the `try` (open
failure raises); inside the `try`, `DELETE FROM cache`, a raising statement
caught and logged. -/
def Cache.clear_all (f : StorageFail) (st : CacheState) :
    Except StorageErr Unit × CacheState :=
  match f with
  | .connectFail => (.error ⟨"cannot open"⟩, st)
  | .queryFail => (.ok (), st)
  | .ok => (.ok (), [])

/-- The row loop of cache.py `Cache.clear_expired`: for each fetched row
whose entry is expired, delete by key and increment `deleted_count`. -/
def sweepLoop (now : Int) :
    List (String × CacheEntry) → Nat × CacheState → Nat × CacheState
  | [], acc => acc
  | row :: rest, acc =>
    if Cache.is_expired now row.2.timestamp row.2.expiry_seconds then
      sweepLoop now rest (acc.1 + 1, acc.2.filter (fun r => !(r.1 == row.1)))
    else sweepLoop now rest acc

/-- cache.py `Cache.clear_expired`: `_get_connection()` before the `try`
(open failure raises); inside the `try`, select every row, delete the
expired ones one by one while counting, and log the count; a raising
initial select is caught with nothing deleted.  The Python function has no
`return` statement, so the caller-visible value on the non-raising paths is
`None` (the `none` inside `ok`). -/
def Cache.clear_expired (f : StorageFail) (now : Int) (st : CacheState) :
    Except StorageErr (Option Nat) × CacheState :=
  match f with
  | .connectFail => (.error ⟨"cannot open"⟩, st)
  | .queryFail => (.ok none, st)
  | .ok => (.ok none, (sweepLoop now st (0, st)).2)

/-- The dictionary returned by cache.py `Cache.get_stats` (the two
`db_size` fields both derive from the file size, which is passed in). -/
structure CacheStats where
  total_entries : Nat
  expired_entries : Nat
  valid_entries : Int
  db_size_bytes : Int

/-- The generator-sum `sum(1 for timestamp, expiry_seconds in result if
self._is_expired(timestamp, expiry_seconds))` of cache.py
`Cache.get_stats`. -/
def countExpiredRows (now : Int) : List (String × CacheEntry) → Nat
  | [] => 0
  | row :: rest =>
    (if Cache.is_expired now row.2.timestamp row.2.expiry_seconds then 1
     else 0) + countExpiredRows now rest

/-- cache.py `Cache.get_stats`: `_get_connection()` before the `try` (open
failure raises); inside the `try`, `COUNT(*)`, a per-row expiry scan with
no deletion, and `valid = total - expired`; a raising query is caught and
the handler returns the empty dictionary (`none`).  No statement mutates
the table in any mode. -/
def Cache.get_stats (f : StorageFail) (now dbSize : Int) (st : CacheState) :
    Except StorageErr (Option CacheStats) × CacheState :=
  match f with
  | .connectFail => (.error ⟨"cannot open"⟩, st)
  | .queryFail => (.ok none, st)
  | .ok =>
    (.ok (some ⟨st.length, countExpiredRows now st,
      (st.length : Int) - (countExpiredRows now st : Int), dbSize⟩), st)

/-- A provider (yfinance) failure: the exception raised by a fetch. -/
structure ProviderErr where
  msg : String
deriving DecidableEq

/-- fetcher.py `DataFetcher.fetch_news_headlines`: the provider outcome is
either the parsed news list or an exception; the body returns `[]` when the
list is empty and otherwise the first `max_items` items, and the
`except` handler catches every provider error, logs it, and returns `[]` —
this fetch never raises. -/
def DataFetcher.fetch_news_headlines
    (provider : Except ProviderErr (List NewsItem)) (max_items : Nat) :
    List NewsItem :=
  match provider with
  | .error _ => []
  | .ok news => if news.isEmpty then [] else news.take max_items

/-- fetcher.py `DataFetcher.fetch_stock_price_history`: the body's outcome
(a `StockData` built from provider data, or a provider exception) passes
through unchanged because the `except` handler logs and re-raises. -/
def DataFetcher.fetch_stock_price_history
    (outcome : Except ProviderErr StockData) : Except ProviderErr StockData :=
  outcome

/-- The `try: ... except: pass-with-log` field assignment pattern of
fetcher.py `DataFetcher.fetch_all_data`: a succeeding fetch populates the
field, a failing one leaves it `None`. -/
def tryAssign : Except ProviderErr α → Option α
  | .ok a => some a
  | .error _ => none

/-- fetcher.py `DataFetcher.fetch_all_data`: build a `MarketData` for the
uppercased ticker at the current time, then attempt each category fetch
independently, logging failures instead of aborting the bundle.  Each
category's provider outcome is an explicit argument; news goes through
`fetch_news_headlines` (default `max_items = 20`), which itself never
raises. -/
def DataFetcher.fetch_all_data (ticker : String) (now : Int)
    (stockR : Except ProviderErr StockData)
    (fundR : Except ProviderErr Fundamentals)
    (optR : Except ProviderErr OptionsChain)
    (newsProv : Except ProviderErr (List NewsItem))
    (ratR : Except ProviderErr AnalystRatings) : MarketData :=
  { ticker := pyUpper ticker
    timestamp := now
    stock_data := tryAssign stockR
    fundamentals := tryAssign fundR
    options_chain := tryAssign optR
    news := DataFetcher.fetch_news_headlines newsProv 20
    analyst_ratings := tryAssign ratR }

/-- An exception escaping a wrapper fetch method: either the
collaborator's provider error (re-raised on a cache miss) or a storage
connection-open error escaping `Cache.get` or `Cache.set` (neither call is
wrapped in a try/except in cache.py's `CachedDataFetcher`). -/
inductive WrapErr where
  | provider (e : ProviderErr)
  | storage (e : StorageErr)
deriving DecidableEq

/-- The shared body of every `CachedDataFetcher.fetch_*` method: when
`use_cache`, consult `Cache.get` — an exception it raises propagates, a hit
is returned immediately; otherwise invoke the collaborator (its outcome is
the `fetched` argument), propagate its failure unchanged, and on success
call `Cache.set` with the category default TTL (no explicit
`expiry_seconds`) — an exception the write raises propagates (so the
fetched data is not returned), while a caught write failure still returns
the fresh data.  The third component records whether the collaborator was
invoked; `fGet`, `fDel`, `fSet` are the storage behaviours of the get, its
inner delete, and the set; `nowGet`/`nowSet` the two clock readings. -/
def CachedDataFetcher.fetchWithCache (data_type : String)
    (use_cache : Bool) (fGet fDel fSet : StorageFail) (nowGet nowSet : Int)
    (st : CacheState) (ticker : String)
    (fetched : Except ProviderErr PyObj) :
    Except WrapErr PyObj × CacheState × Bool :=
  if use_cache then
    match Cache.get fGet fDel nowGet st ticker data_type with
    | (.error e, st1) => (.error (.storage e), st1, false)
    | (.ok (some v), st1) => (.ok v, st1, false)
    | (.ok none, st1) =>
      match fetched with
      | .error e => (.error (.provider e), st1, true)
      | .ok d =>
        match Cache.set fSet nowSet st1 ticker data_type d none with
        | (.error e, st2) => (.error (.storage e), st2, true)
        | (.ok _, st2) => (.ok d, st2, true)
  else
    match fetched with
    | .error e => (.error (.provider e), st, true)
    | .ok d => (.ok d, st, true)

/-- cache.py `CachedDataFetcher.fetch_stock_price_history` under category
`stock_data`. -/
def CachedDataFetcher.fetch_stock_price_history
    (use_cache : Bool) (fGet fDel fSet : StorageFail) (nowGet nowSet : Int)
    (st : CacheState) (ticker : String)
    (fetched : Except ProviderErr StockData) :
    Except WrapErr PyObj × CacheState × Bool :=
  CachedDataFetcher.fetchWithCache "stock_data" use_cache fGet fDel fSet
    nowGet nowSet st ticker
    (fetched.map fun d => PyObj.record (DataRecord.stock d))

/-- cache.py `CachedDataFetcher.fetch_fundamental_data` under category
`fundamentals`. -/
def CachedDataFetcher.fetch_fundamental_data
    (use_cache : Bool) (fGet fDel fSet : StorageFail) (nowGet nowSet : Int)
    (st : CacheState) (ticker : String)
    (fetched : Except ProviderErr Fundamentals) :
    Except WrapErr PyObj × CacheState × Bool :=
  CachedDataFetcher.fetchWithCache "fundamentals" use_cache fGet fDel fSet
    nowGet nowSet st ticker
    (fetched.map fun d => PyObj.record (DataRecord.fund d))

/-- cache.py `CachedDataFetcher.fetch_options_chain` under category
`options_chain`. -/
def CachedDataFetcher.fetch_options_chain
    (use_cache : Bool) (fGet fDel fSet : StorageFail) (nowGet nowSet : Int)
    (st : CacheState) (ticker : String)
    (fetched : Except ProviderErr OptionsChain) :
    Except WrapErr PyObj × CacheState × Bool :=
  CachedDataFetcher.fetchWithCache "options_chain" use_cache fGet fDel fSet
    nowGet nowSet st ticker
    (fetched.map fun d => PyObj.record (DataRecord.chain d))

/-- cache.py `CachedDataFetcher.fetch_analyst_recommendations` under
category `analyst_ratings`. -/
def CachedDataFetcher.fetch_analyst_recommendations
    (use_cache : Bool) (fGet fDel fSet : StorageFail) (nowGet nowSet : Int)
    (st : CacheState) (ticker : String)
    (fetched : Except ProviderErr AnalystRatings) :
    Except WrapErr PyObj × CacheState × Bool :=
  CachedDataFetcher.fetchWithCache "analyst_ratings" use_cache fGet fDel
    fSet nowGet nowSet st ticker
    (fetched.map fun d => PyObj.record (DataRecord.ratings d))

/-- cache.py `CachedDataFetcher.fetch_news_headlines` under category
`news`: the collaborator `DataFetcher.fetch_news_headlines` never raises,
so the fetched value is always an `ok` news list. -/
def CachedDataFetcher.fetch_news_headlines
    (use_cache : Bool) (fGet fDel fSet : StorageFail) (nowGet nowSet : Int)
    (st : CacheState) (ticker : String)
    (provider : Except ProviderErr (List NewsItem)) (max_items : Nat) :
    Except WrapErr PyObj × CacheState × Bool :=
  CachedDataFetcher.fetchWithCache "news" use_cache fGet fDel fSet
    nowGet nowSet st ticker
    (.ok (PyObj.record (DataRecord.news
      (DataFetcher.fetch_news_headlines provider max_items))))

@[simp] theorem obind_some (a : α) (f : α → Option β) :
    obind (some a) f = f a := rfl

@[simp] theorem obind_none (f : α → Option β) :
    obind (none : Option α) f = none := rfl

@[simp] theorem decInt_encInt (n : Int) : decInt (encInt n) = some n := rfl

@[simp] theorem decStr_encStr (s : String) : decStr (encStr s) = some s := rfl

@[simp] theorem decBool_encBool (b : Bool) : decBool (encBool b) = some b :=
  rfl

@[simp] theorem decInt_pint (n : Int) : decInt (.pint n) = some n := rfl

@[simp] theorem decStr_pstr (s : String) : decStr (.pstr s) = some s := rfl

@[simp] theorem decBool_pbool (b : Bool) : decBool (.pbool b) = some b := rfl

@[simp] theorem decOptInt_encOptInt (x : Option Int) :
    decOptInt (encOptInt x) = some x := by cases x <;> rfl

@[simp] theorem decOptStr_encOptStr (x : Option String) :
    decOptStr (encOptStr x) = some x := by cases x <;> rfl

theorem decodeAll_map (enc : α → PValue) (dec : PValue → Option α)
    (h : ∀ a, dec (enc a) = some a) (l : List α) :
    decodeAll dec (l.map enc) = some l := by
  induction l with
  | nil => rfl
  | cons a l ih => simp [decodeAll, h, ih]

@[simp] theorem decodeAll_encOptInt (l : List (Option Int)) :
    decodeAll decOptInt (l.map encOptInt) = some l :=
  decodeAll_map _ _ decOptInt_encOptInt l

@[simp] theorem decodeAll_encInt (l : List Int) :
    decodeAll decInt (l.map encInt) = some l :=
  decodeAll_map _ _ decInt_encInt l

@[simp] theorem decodeAll_encStr (l : List String) :
    decodeAll decStr (l.map encStr) = some l :=
  decodeAll_map _ _ decStr_encStr l

@[simp] theorem decRow_encRow (row : List (Option Flt)) :
    decRow (encRow row) = some row := by
  simp [encRow, decRow]

@[simp] theorem decodeAll_encRow (l : List (List (Option Flt))) :
    decodeAll decRow (l.map encRow) = some l :=
  decodeAll_map _ _ decRow_encRow l

@[simp] theorem decDF_encDF (df : DFrame) : decDF (encDF df) = some df := by
  cases df
  simp [encDF, decDF]

@[simp] theorem decOptDF_encOptDF (x : Option DFrame) :
    decOptDF (encOptDF x) = some x := by
  cases x with
  | none => rfl
  | some df => cases df; simp [encOptDF, decOptDF, encDF, decDF]

@[simp] theorem decStock_encStock (d : StockData) :
    decStock (encStock d) = some d := by
  cases d
  simp [encStock, decStock]

@[simp] theorem decFund_encFund (d : Fundamentals) :
    decFund (encFund d) = some d := by
  cases d
  simp [encFund, decFund, decFundFields]

@[simp] theorem decContract_encContract (d : OptionContract) :
    decContract (encContract d) = some d := by
  cases d
  simp [encContract, decContract, decContractFields]

@[simp] theorem decodeAll_encContract (l : List OptionContract) :
    decodeAll decContract (l.map encContract) = some l :=
  decodeAll_map _ _ decContract_encContract l

@[simp] theorem decChain_encChain (d : OptionsChain) :
    decChain (encChain d) = some d := by
  cases d
  simp [encChain, decChain]

@[simp] theorem decNewsItem_encNewsItem (d : NewsItem) :
    decNewsItem (encNewsItem d) = some d := by
  cases d
  simp [encNewsItem, decNewsItem, decNewsItemFields]

@[simp] theorem decodeAll_encNewsItem (l : List NewsItem) :
    decodeAll decNewsItem (l.map encNewsItem) = some l :=
  decodeAll_map _ _ decNewsItem_encNewsItem l

@[simp] theorem decRecommendation_encRecommendation
    (d : AnalystRecommendation) :
    decRecommendation (encRecommendation d) = some d := by
  cases d
  simp [encRecommendation, decRecommendation]

@[simp] theorem decodeAll_encRecommendation (l : List AnalystRecommendation) :
    decodeAll decRecommendation (l.map encRecommendation) = some l :=
  decodeAll_map _ _ decRecommendation_encRecommendation l

@[simp] theorem decRatings_encRatings (d : AnalystRatings) :
    decRatings (encRatings d) = some d := by
  cases d
  simp [encRatings, decRatings, decRatingsFields]

@[simp] theorem decOptStock_encOptStock (x : Option StockData) :
    decOptStock (encOptStock x) = some x := by
  cases x with
  | none => rfl
  | some d => cases d; simp [encOptStock, decOptStock, encStock, decStock]

@[simp] theorem decOptFund_encOptFund (x : Option Fundamentals) :
    decOptFund (encOptFund x) = some x := by
  cases x with
  | none => rfl
  | some d => cases d; simp [encOptFund, decOptFund, encFund, decFund, decFundFields]

@[simp] theorem decOptChain_encOptChain (x : Option OptionsChain) :
    decOptChain (encOptChain x) = some x := by
  cases x with
  | none => rfl
  | some d => cases d; simp [encOptChain, decOptChain, encChain, decChain]

@[simp] theorem decOptRatings_encOptRatings (x : Option AnalystRatings) :
    decOptRatings (encOptRatings x) = some x := by
  cases x with
  | none => rfl
  | some d => cases d; simp [encOptRatings, decOptRatings, encRatings, decRatings, decRatingsFields]

@[simp] theorem decMarket_encMarket (d : MarketData) :
    decMarket (encMarket d) = some d := by
  cases d
  simp [encMarket, decMarket]

/-- Decoding inverts encoding for every supported record category. -/
theorem loads_encRecord (r : DataRecord) :
    loads (encRecord r) = some (PyObj.record r) := by
  cases r <;> simp [encRecord, loads]

theorem is_expired_false {now t e : Int} (h : now ≤ t + e) :
    Cache.is_expired now t e = false := by
  simp only [Cache.is_expired, gt_iff_lt, decide_eq_false_iff_not, not_lt]
  exact h

theorem is_expired_true {now t e : Int} (h : t + e < now) :
    Cache.is_expired now t e = true := by
  simp only [Cache.is_expired, gt_iff_lt, decide_eq_true_eq]
  exact h

theorem append_colon_inj :
    ∀ (u1 u2 v1 v2 : List Char), ':' ∉ u1 → ':' ∉ u2 →
      u1 ++ ':' :: v1 = u2 ++ ':' :: v2 → u1 = u2 ∧ v1 = v2
  | [], [], v1, v2, _, _, heq => by
    simp only [List.nil_append, List.cons.injEq] at heq
    exact ⟨rfl, heq.2⟩
  | [], c :: u2, v1, v2, _, h2, heq => by
    simp only [List.nil_append, List.cons_append, List.cons.injEq] at heq
    exact absurd (heq.1 ▸ List.mem_cons_self c u2) h2
  | c :: u1, [], v1, v2, h1, _, heq => by
    simp only [List.nil_append, List.cons_append, List.cons.injEq] at heq
    exact absurd (heq.1.symm ▸ List.mem_cons_self c u1) h1
  | c1 :: u1, c2 :: u2, v1, v2, h1, h2, heq => by
    simp only [List.cons_append, List.cons.injEq] at heq
    have h1' : ':' ∉ u1 := fun hm => h1 (List.mem_cons_of_mem _ hm)
    have h2' : ':' ∉ u2 := fun hm => h2 (List.mem_cons_of_mem _ hm)
    obtain ⟨hu, hv⟩ := append_colon_inj u1 u2 v1 v2 h1' h2' heq.2
    exact ⟨by rw [heq.1, hu], hv⟩

theorem make_key_data (t c : String) :
    (Cache.make_key t c).data = (pyUpper t).data ++ ':' :: c.data := by
  have hcolon : (":" : String).data = [':'] := rfl
  simp [Cache.make_key, String.data_append, hcolon]

/-- With colon-free (normalized) tickers, the key scheme is injective. -/
theorem make_key_inj (t1 c1 t2 c2 : String) (h1 : ':' ∉ (pyUpper t1).data)
    (h2 : ':' ∉ (pyUpper t2).data)
    (heq : Cache.make_key t1 c1 = Cache.make_key t2 c2) :
    pyUpper t1 = pyUpper t2 ∧ c1 = c2 := by
  have hd := congrArg String.data heq
  rw [make_key_data, make_key_data] at hd
  obtain ⟨hu, hc⟩ := append_colon_inj _ _ _ _ h1 h2 hd
  exact ⟨String.ext hu, String.ext hc⟩

theorem dbLookup_insertOrReplace_self (st : CacheState) (k : String)
    (e : CacheEntry) : dbLookup (insertOrReplace st k e) k = some e := by
  induction st with
  | nil => simp [insertOrReplace, dbLookup]
  | cons r rest ih =>
    obtain ⟨k0, e0⟩ := r
    by_cases h : k0 = k <;> simp [insertOrReplace, dbLookup, h, ih]

theorem dbLookup_insertOrReplace_ne (st : CacheState) (k k' : String)
    (e : CacheEntry) (hne : k' ≠ k) :
    dbLookup (insertOrReplace st k e) k' = dbLookup st k' := by
  have hne' : ¬(k = k') := fun h => hne h.symm
  induction st with
  | nil => simp [insertOrReplace, dbLookup, hne']
  | cons r rest ih =>
    obtain ⟨k0, e0⟩ := r
    by_cases h : k0 = k
    · subst h
      simp [insertOrReplace, dbLookup, hne']
    · simp [insertOrReplace, dbLookup, h, ih]

theorem mem_keys_insertOrReplace :
    ∀ (st : CacheState) (k : String) (e : CacheEntry) (k' : String),
      k' ∈ (insertOrReplace st k e).map Prod.fst →
        k' = k ∨ k' ∈ st.map Prod.fst
  | [], k, e, k', h => by simpa [insertOrReplace] using h
  | (k0, e0) :: rest, k, e, k', h => by
    by_cases hk : k0 = k
    · subst hk
      simp only [insertOrReplace, if_true] at h
      rw [List.map_cons] at h
      rcases List.mem_cons.mp h with h1 | h2
      · exact .inl h1
      · exact .inr (by rw [List.map_cons]; exact List.mem_cons.mpr (.inr h2))
    · simp only [insertOrReplace] at h
      rw [if_neg hk, List.map_cons] at h
      rcases List.mem_cons.mp h with h1 | h2
      · exact .inr (by rw [List.map_cons]; exact List.mem_cons.mpr (.inl h1))
      · rcases mem_keys_insertOrReplace rest k e k' h2 with h3 | h4
        · exact .inl h3
        · exact .inr (by rw [List.map_cons]; exact List.mem_cons.mpr (.inr h4))

theorem keysUnique_insertOrReplace :
    ∀ (st : CacheState) (k : String) (e : CacheEntry), keysUnique st →
      keysUnique (insertOrReplace st k e)
  | [], k, e, _ => by simp [insertOrReplace, keysUnique]
  | (k0, e0) :: rest, k, e, h => by
    simp only [keysUnique, List.map_cons, List.nodup_cons] at h
    by_cases hk : k0 = k
    · subst hk
      simp only [insertOrReplace, if_true, keysUnique]
      rw [List.map_cons, List.nodup_cons]
      exact h
    · have hrest := keysUnique_insertOrReplace rest k e h.2
      simp only [insertOrReplace, keysUnique]
      rw [if_neg hk, List.map_cons, List.nodup_cons]
      refine ⟨fun hm => ?_, hrest⟩
      rcases mem_keys_insertOrReplace rest k e k0 hm with h1 | h1
      · exact hk h1
      · exact h.1 h1

theorem keysUnique_set (f : StorageFail) (now : Int) (st : CacheState)
    (t dt : String) (d : PyObj) (eo : Option Int) (h : keysUnique st) :
    keysUnique (Cache.set f now st t dt d eo).2 := by
  cases hd : dumps d with
  | none => simpa [Cache.set, hd] using h
  | some blob =>
    cases f with
    | connectFail => simpa [Cache.set, hd] using h
    | queryFail => simpa [Cache.set, hd] using h
    | ok => simpa [Cache.set, hd] using keysUnique_insertOrReplace st _ _ h

theorem mem_eq_of_keysUnique :
    ∀ (st : CacheState), keysUnique st →
      ∀ r r' : String × CacheEntry, r ∈ st → r' ∈ st → r.1 = r'.1 → r = r'
  | [], _, r, _, hr, _, _ => absurd hr (List.not_mem_nil r)
  | a :: rest, h, r, r', hr, hr', hk => by
    simp only [keysUnique, List.map_cons, List.nodup_cons] at h
    rcases List.mem_cons.mp hr with h1 | h1
    · rcases List.mem_cons.mp hr' with h2 | h2
      · rw [h1, h2]
      · have hm := List.mem_map_of_mem Prod.fst h2
        rw [← hk, h1] at hm
        exact absurd hm h.1
    · rcases List.mem_cons.mp hr' with h2 | h2
      · have hm := List.mem_map_of_mem Prod.fst h1
        rw [hk, h2] at hm
        exact absurd hm h.1
      · exact mem_eq_of_keysUnique rest h.2 r r' h1 h2 hk

theorem sweepLoop_cons_true (now : Int) (row : String × CacheEntry)
    (rest : List (String × CacheEntry)) (acc : Nat × CacheState)
    (h : Cache.is_expired now row.2.timestamp row.2.expiry_seconds = true) :
    sweepLoop now (row :: rest) acc =
      sweepLoop now rest (acc.1 + 1, acc.2.filter (fun r => !(r.1 == row.1))) := by
  simp [sweepLoop, h]

theorem sweepLoop_cons_false (now : Int) (row : String × CacheEntry)
    (rest : List (String × CacheEntry)) (acc : Nat × CacheState)
    (h : Cache.is_expired now row.2.timestamp row.2.expiry_seconds = false) :
    sweepLoop now (row :: rest) acc = sweepLoop now rest acc := by
  simp [sweepLoop, h]

theorem sweepLoop_snd (now : Int) (rows : List (String × CacheEntry)) :
    ∀ (n : Nat) (s : CacheState),
      (sweepLoop now rows (n, s)).2 =
        s.filter (fun r => !(rows.any fun row => r.1 == row.1 &&
          Cache.is_expired now row.2.timestamp row.2.expiry_seconds)) := by
  induction rows with
  | nil => intro n s; simp [sweepLoop]
  | cons row rest ih =>
    intro n s
    cases h : Cache.is_expired now row.2.timestamp row.2.expiry_seconds with
    | true =>
      rw [sweepLoop_cons_true now row rest (n, s) h, ih, List.filter_filter]
      apply List.filter_congr
      intro r _
      simp [List.any_cons, h, Bool.not_or, Bool.and_comm]
    | false =>
      rw [sweepLoop_cons_false now row rest (n, s) h, ih]
      apply List.filter_congr
      intro r _
      simp [List.any_cons, h]

theorem clear_expired_eq_filter (now : Int) (st : CacheState)
    (h : keysUnique st) :
    Cache.clear_expired .ok now st =
      (.ok none, st.filter (fun r =>
        !(Cache.is_expired now r.2.timestamp r.2.expiry_seconds))) := by
  simp only [Cache.clear_expired]
  rw [sweepLoop_snd]
  refine congrArg _ (List.filter_congr ?_)
  intro r hr
  have hany : (st.any fun row => r.1 == row.1 &&
      Cache.is_expired now row.2.timestamp row.2.expiry_seconds) =
      Cache.is_expired now r.2.timestamp r.2.expiry_seconds := by
    cases hexp : Cache.is_expired now r.2.timestamp r.2.expiry_seconds with
    | true =>
      exact List.any_eq_true.mpr ⟨r, hr, by simp [hexp]⟩
    | false =>
      refine List.any_eq_false.mpr ?_
      intro row hrow hcontr
      simp only [Bool.and_eq_true, beq_iff_eq] at hcontr
      have : r = row := mem_eq_of_keysUnique st h r row hr hrow hcontr.1
      rw [← this] at hcontr
      rw [hcontr.2] at hexp
      exact Bool.true_eq_false.mp hexp
  rw [hany]

theorem countExpiredRows_eq_countP (now : Int) (st : CacheState) :
    countExpiredRows now st =
      st.countP (fun r => Cache.is_expired now r.2.timestamp
        r.2.expiry_seconds) := by
  induction st with
  | nil => rfl
  | cons r rest ih =>
    simp only [countExpiredRows, List.countP_cons, ih]
    omega

theorem get_fst_eq_of_lookup_eq (f fdel : StorageFail) (now : Int)
    (st1 st2 : CacheState) (t dt : String)
    (h : dbLookup st1 (Cache.make_key t dt) =
      dbLookup st2 (Cache.make_key t dt)) :
    (Cache.get f fdel now st1 t dt).1 = (Cache.get f fdel now st2 t dt).1 := by
  cases f with
  | connectFail => rfl
  | queryFail => rfl
  | ok =>
    cases h2 : dbLookup st2 (Cache.make_key t dt) with
    | none => simp [Cache.get, h, h2]
    | some e =>
      by_cases hexp : Cache.is_expired now e.timestamp e.expiry_seconds
      · simp [Cache.get, h, h2, hexp]
      · cases hl : loads e.value <;> simp [Cache.get, h, h2, hexp, hl]

theorem set_record_eq (now : Int) (st : CacheState) (t dt : String)
    (r : DataRecord) (eo : Option Int) :
    Cache.set .ok now st t dt (PyObj.record r) eo =
      (.ok (), insertOrReplace st (Cache.make_key t dt)
        ⟨encRecord r, dt, now, eo.getD (Cache.get_default_expiry dt)⟩) := by
  simp [Cache.set, dumps]

theorem set_fst_ok (f : StorageFail) (now : Int) (st : CacheState)
    (t dt : String) (d : PyObj) (eo : Option Int)
    (hf : f ≠ StorageFail.connectFail) :
    (Cache.set f now st t dt d eo).1 = .ok () := by
  cases f with
  | connectFail => exact absurd rfl hf
  | queryFail => cases hd : dumps d <;> simp [Cache.set, hd]
  | ok => cases hd : dumps d <;> simp [Cache.set, hd]

theorem get_fst_ok (f fdel : StorageFail) (now : Int) (st : CacheState)
    (t dt : String) (hf : f ≠ StorageFail.connectFail) :
    ∃ o, (Cache.get f fdel now st t dt).1 = .ok o := by
  cases f with
  | connectFail => exact absurd rfl hf
  | queryFail => exact ⟨none, rfl⟩
  | ok =>
    cases hl : dbLookup st (Cache.make_key t dt) with
    | none => exact ⟨none, by simp [Cache.get, hl]⟩
    | some e =>
      by_cases hexp : Cache.is_expired now e.timestamp e.expiry_seconds
      · exact ⟨none, by simp [Cache.get, hl, hexp]⟩
      · cases hv : loads e.value with
        | none => exact ⟨none, by simp [Cache.get, hl, hexp, hv]⟩
        | some data => exact ⟨some data, by simp [Cache.get, hl, hexp, hv]⟩

theorem dbLookup_set_snd_ne (f : StorageFail) (now : Int) (st : CacheState)
    (t dt : String) (d : PyObj) (eo : Option Int) (k : String)
    (hk : k ≠ Cache.make_key t dt) :
    dbLookup (Cache.set f now st t dt d eo).2 k = dbLookup st k := by
  cases hd : dumps d with
  | none => simp [Cache.set, hd]
  | some blob =>
    cases f with
    | connectFail => simp [Cache.set, hd]
    | queryFail => simp [Cache.set, hd]
    | ok =>
      have hs : (Cache.set .ok now st t dt d eo).2 =
          insertOrReplace st (Cache.make_key t dt)
            ⟨blob, dt, now, eo.getD (Cache.get_default_expiry dt)⟩ := by
        simp [Cache.set, hd]
      rw [hs]
      exact dbLookup_insertOrReplace_ne st _ _ _ hk

theorem filter_not_length_add_countP (p : α → Bool) (l : List α) :
    (l.filter (fun a => !(p a))).length + l.countP p = l.length := by
  induction l with
  | nil => rfl
  | cons a l ih =>
    cases h : p a <;> simp [List.filter_cons, List.countP_cons, h] <;> omega

/-- C3: Serialization round trip — for every supported record category
(StockData, Fundamentals, OptionsChain, news list, AnalystRatings,
MarketData), decoding the encoded bytes reproduces the original record with
full fidelity, including tabular time-series fields, optional/absent numeric
fields, and lists of nested sub-records. -/
theorem codec_round_trip (r : DataRecord) :
    (dumps (PyObj.record r)).bind loads = some (PyObj.record r) := by
  simp [dumps, loads_encRecord]

/-- C5: Atomic abandon on encode failure — encoding runs before the
connection is opened, so for every storage behaviour `set` with an
unencodable record returns normally (`None`) and leaves the store
completely unchanged (the prior entry for the key, if any, remains
untouched); nothing is raised to the caller. -/
theorem set_abandons_write_on_encode_failure (f : StorageFail) (now : Int)
    (st : CacheState) (ticker data_type : String) (k : Nat)
    (eo : Option Int) :
    Cache.set f now st ticker data_type (PyObj.unpicklable k) eo =
      (.ok (), st) :=
  rfl

/-- C4 counterexample: a connection-open failure is not caught — at a
concrete input, `get` and `set` let the `duckdb.connect` exception escape
to the caller instead of producing the claimed absent/silent outcome. -/
theorem storage_open_failure_propagates_counterexample :
    Cache.get .connectFail .ok 0 [] "IBM" "price" =
      (.error ⟨"cannot open"⟩, []) ∧
    (Except.error ⟨"cannot open"⟩ : Except StorageErr (Option PyObj)) ≠
      .ok none ∧
    Cache.set .connectFail 0 [] "IBM" "price"
      (PyObj.record (DataRecord.news [])) none =
      (.error ⟨"cannot open"⟩, []) ∧
    (Except.error ⟨"cannot open"⟩ : Except StorageErr Unit) ≠ .ok () := by
  exact ⟨rfl, by simp, rfl, by simp⟩

/-- C4 (amended): storage errors raised inside each operation's `try`
block — a failing query or a corrupt blob — are caught at that operation's
boundary and never propagate: `get` returns absent, and `set`, `delete`,
`clear_ticker`, `clear_all` return silently with no effect.  But the
connection-open call runs before the `try` block, so a cannot-open failure
propagates uncaught out of every operation (for `set` only when encoding
succeeded, since encoding runs before the connection is opened), always
with the table unchanged. -/
theorem storage_errors_fail_open_amended (now : Int) (st : CacheState)
    (ticker data_type : String) (d : PyObj) (eo : Option Int)
    (fdel : StorageFail) :
    Cache.get .queryFail fdel now st ticker data_type = (.ok none, st) ∧
    Cache.set .queryFail now st ticker data_type d eo = (.ok (), st) ∧
    Cache.delete .queryFail st ticker data_type = (.ok (), st) ∧
    Cache.clear_ticker .queryFail st ticker = (.ok (), st) ∧
    Cache.clear_all .queryFail st = (.ok (), st) ∧
    (∀ e : CacheEntry,
      dbLookup st (Cache.make_key ticker data_type) = some e →
      loads e.value = none →
      Cache.is_expired now e.timestamp e.expiry_seconds = false →
      Cache.get .ok fdel now st ticker data_type = (.ok none, st)) ∧
    Cache.get .connectFail fdel now st ticker data_type =
      (.error ⟨"cannot open"⟩, st) ∧
    (∀ blob : PValue, dumps d = some blob →
      Cache.set .connectFail now st ticker data_type d eo =
        (.error ⟨"cannot open"⟩, st)) ∧
    Cache.delete .connectFail st ticker data_type =
      (.error ⟨"cannot open"⟩, st) ∧
    Cache.clear_ticker .connectFail st ticker =
      (.error ⟨"cannot open"⟩, st) ∧
    Cache.clear_all .connectFail st = (.error ⟨"cannot open"⟩, st) := by
  refine ⟨rfl, ?_, rfl, rfl, rfl, ?_, rfl, ?_, rfl, rfl, rfl⟩
  · cases hd : dumps d <;> simp [Cache.set, hd]
  · intro e hl hload hexp
    simp [Cache.get, hl, hexp, hload]
  · intro blob hd
    simp [Cache.set, hd]

/-- Witness for C4 (amended): a concrete unexpired row with a corrupt blob
degrades to a miss with the store unchanged, and a concrete open failure
escapes `set`. -/
theorem storage_errors_fail_open_amended_witness :
    Cache.get .ok .ok 0
      [(Cache.make_key "IBM" "price", ⟨PValue.pnone, "price", 0, 100⟩)]
      "IBM" "price" =
    (.ok none, [(Cache.make_key "IBM" "price",
      ⟨PValue.pnone, "price", 0, 100⟩)]) ∧
    Cache.set .connectFail 0 [] "IBM" "price"
      (PyObj.record (DataRecord.news [])) none =
      (.error ⟨"cannot open"⟩, []) :=
  ⟨(storage_errors_fail_open_amended 0
      [(Cache.make_key "IBM" "price", ⟨PValue.pnone, "price", 0, 100⟩)]
      "IBM" "price" (PyObj.unpicklable 0) none .ok).2.2.2.2.2.1
      ⟨PValue.pnone, "price", 0, 100⟩ (by simp [dbLookup]) rfl (by decide),
   (storage_errors_fail_open_amended 0 [] "IBM" "price"
      (PyObj.record (DataRecord.news [])) none .ok).2.2.2.2.2.2.2.1
      (encRecord (DataRecord.news [])) rfl⟩

/-- C1: TTL correctness of `get` — for an entry written for
(ticker, category) with `ttl_seconds = T` at time `written_at = t0`, on the
non-failing storage path `get` returns the stored record while
`now ≤ t0 + T`, and once `t0 + T < now` it performs the same action as
`delete (ticker, category)` (its resulting table) and returns absent. -/
theorem ttl_correctness_of_get (st : CacheState) (t0 T now : Int)
    (ticker data_type : String) (r : DataRecord) :
    (now ≤ t0 + T →
      Cache.get .ok .ok now
        (Cache.set .ok t0 st ticker data_type (PyObj.record r) (some T)).2
        ticker data_type =
      (.ok (some (PyObj.record r)),
        (Cache.set .ok t0 st ticker data_type (PyObj.record r)
          (some T)).2)) ∧
    (t0 + T < now →
      Cache.get .ok .ok now
        (Cache.set .ok t0 st ticker data_type (PyObj.record r) (some T)).2
        ticker data_type =
      (.ok none, (Cache.delete .ok
        (Cache.set .ok t0 st ticker data_type (PyObj.record r) (some T)).2
        ticker data_type).2)) := by
  have hlook : dbLookup
      (Cache.set .ok t0 st ticker data_type (PyObj.record r) (some T)).2
      (Cache.make_key ticker data_type) =
      some ⟨encRecord r, data_type, t0, T⟩ := by
    rw [set_record_eq]
    simpa using dbLookup_insertOrReplace_self st
      (Cache.make_key ticker data_type) _
  constructor
  · intro h
    simp [Cache.get, hlook, is_expired_false h, loads_encRecord]
  · intro h
    simp [Cache.get, hlook, is_expired_true h]

/-- Witness for C1: a record written at time 0 with a 10 second TTL is
returned at time 5 and lazily deleted at time 20. -/
theorem ttl_correctness_of_get_witness :
    (Cache.get .ok .ok 5
      (Cache.set .ok 0 [] "AAPL" "price"
        (PyObj.record (DataRecord.news [])) (some 10)).2 "AAPL" "price" =
      (.ok (some (PyObj.record (DataRecord.news []))),
        (Cache.set .ok 0 [] "AAPL" "price"
          (PyObj.record (DataRecord.news [])) (some 10)).2)) ∧
    (Cache.get .ok .ok 20
      (Cache.set .ok 0 [] "AAPL" "price"
        (PyObj.record (DataRecord.news [])) (some 10)).2 "AAPL" "price" =
      (.ok none, (Cache.delete .ok
        (Cache.set .ok 0 [] "AAPL" "price"
          (PyObj.record (DataRecord.news [])) (some 10)).2
        "AAPL" "price").2)) :=
  ⟨(ttl_correctness_of_get [] 0 10 5 "AAPL" "price"
      (DataRecord.news [])).1 (by decide),
   (ttl_correctness_of_get [] 0 10 20 "AAPL" "price"
      (DataRecord.news [])).2 (by decide)⟩

/-- C9: Stats is read-only — `get_stats` leaves the persisted rows
unchanged in every storage mode (no deletion even of expired rows, unlike
`get`), and on the non-failing path reports `total_entries`,
`expired_entries` computed per-row against the current time, and
`valid_entries = total_entries - expired_entries`. -/
theorem get_stats_read_only (f : StorageFail) (now dbSize : Int)
    (st : CacheState) :
    (Cache.get_stats f now dbSize st).2 = st ∧
    Cache.get_stats .ok now dbSize st =
      (.ok (some ⟨st.length,
        st.countP (fun r =>
          Cache.is_expired now r.2.timestamp r.2.expiry_seconds),
        (st.length : Int) - (st.countP (fun r =>
          Cache.is_expired now r.2.timestamp r.2.expiry_seconds) : Int),
        dbSize⟩), st) := by
  constructor
  · cases f <;> rfl
  · simp [Cache.get_stats, countExpiredRows_eq_countP]

/-- C2 counterexample: with a successful collaborator fetch, a
connection-open failure inside `Cache.set` escapes through the wrapper
(cache.py's `CachedDataFetcher` wraps no cache call in try/except), so the
freshly fetched record is not returned even though the fetch succeeded —
refuting "returns the freshly fetched record regardless of whether the
cache write succeeded". -/
theorem set_open_failure_blocks_return_counterexample :
    CachedDataFetcher.fetchWithCache "stock_data" true .ok .ok .connectFail
      0 0 [] "MSFT" (.ok (PyObj.record (DataRecord.news []))) =
      (.error (.storage ⟨"cannot open"⟩), [], true) ∧
    (Except.error (WrapErr.storage ⟨"cannot open"⟩) :
      Except WrapErr PyObj) ≠ .ok (PyObj.record (DataRecord.news [])) := by
  exact ⟨rfl, by simp⟩

/-- C2 (amended): for every single-category wrapper fetch with `use_cache`
true — a cache hit is returned immediately and the collaborator is never
invoked; on a miss the collaborator is invoked and `Cache.set` is called
with the category's default TTL; the freshly fetched record is returned
whenever the write does not raise, including when the write is abandoned by
an encode failure or its query fails inside the `try` block, but a
connection-open failure inside `Cache.set` propagates through the wrapper
and the record is not returned; a successful write with no explicit TTL
stores the category's default TTL. -/
theorem cache_aside_read_through_amended (data_type : String)
    (fGet fDel fSet : StorageFail) (nowGet nowSet : Int) (st : CacheState)
    (ticker : String) (fetched : Except ProviderErr PyObj) :
    (∀ v st1,
      Cache.get fGet fDel nowGet st ticker data_type = (.ok (some v), st1) →
      CachedDataFetcher.fetchWithCache data_type true fGet fDel fSet nowGet
        nowSet st ticker fetched = (.ok v, st1, false)) ∧
    (∀ st1,
      Cache.get fGet fDel nowGet st ticker data_type = (.ok none, st1) →
      fSet ≠ .connectFail → ∀ d,
      CachedDataFetcher.fetchWithCache data_type true fGet fDel fSet nowGet
        nowSet st ticker (.ok d) =
      (.ok d, (Cache.set fSet nowSet st1 ticker data_type d none).2,
        true)) ∧
    (∀ st1,
      Cache.get fGet fDel nowGet st ticker data_type = (.ok none, st1) →
      ∀ d blob, dumps d = some blob →
      CachedDataFetcher.fetchWithCache data_type true fGet fDel .connectFail
        nowGet nowSet st ticker (.ok d) =
      (.error (.storage ⟨"cannot open"⟩), st1, true)) ∧
    (∀ (st2 : CacheState) (d : PyObj) (blob : PValue), dumps d = some blob →
      dbLookup (Cache.set .ok nowSet st2 ticker data_type d none).2
        (Cache.make_key ticker data_type) =
      some ⟨blob, data_type, nowSet, Cache.get_default_expiry data_type⟩) := by
  refine ⟨?_, ?_, ?_, ?_⟩
  · intro v st1 hget
    simp [CachedDataFetcher.fetchWithCache, hget]
  · intro st1 hget hf d
    have h1 := set_fst_ok fSet nowSet st1 ticker data_type d none hf
    rcases hs : Cache.set fSet nowSet st1 ticker data_type d none with ⟨a, st2⟩
    rw [hs] at h1
    obtain rfl : a = Except.ok () := h1
    simp [CachedDataFetcher.fetchWithCache, hget, hs]
  · intro st1 hget d blob hd
    simp [CachedDataFetcher.fetchWithCache, hget, Cache.set, hd]
  · intro st2 d blob hd
    have hs : (Cache.set .ok nowSet st2 ticker data_type d none).2 =
        insertOrReplace st2 (Cache.make_key ticker data_type)
          ⟨blob, data_type, nowSet, Cache.get_default_expiry data_type⟩ := by
      simp [Cache.set, hd]
    rw [hs]
    exact dbLookup_insertOrReplace_self st2 _ _

/-- Witness for C2 (amended) under category `stock_data`: on the empty
store the wrapper misses, invokes the collaborator, writes through without
raising, and returns the fresh record; the written row carries the
`stock_data` default TTL. -/
theorem cache_aside_read_through_amended_witness :
    CachedDataFetcher.fetchWithCache "stock_data" true .ok .ok .ok 0 0 []
      "MSFT" (.ok (PyObj.record (DataRecord.news []))) =
      (.ok (PyObj.record (DataRecord.news [])),
        (Cache.set .ok 0 [] "MSFT" "stock_data"
          (PyObj.record (DataRecord.news [])) none).2, true) ∧
    dbLookup (Cache.set .ok 0 [] "MSFT" "stock_data"
        (PyObj.record (DataRecord.news [])) none).2
      (Cache.make_key "MSFT" "stock_data") =
      some ⟨encRecord (DataRecord.news []), "stock_data", 0,
        Cache.get_default_expiry "stock_data"⟩ :=
  ⟨(cache_aside_read_through_amended "stock_data" .ok .ok .ok 0 0 [] "MSFT"
      (.ok (PyObj.record (DataRecord.news [])))).2.1 [] rfl (by decide)
      (PyObj.record (DataRecord.news [])),
   (cache_aside_read_through_amended "stock_data" .ok .ok .ok 0 0 [] "MSFT"
      (.ok (PyObj.record (DataRecord.news [])))).2.2.2 []
      (PyObj.record (DataRecord.news [])) (encRecord (DataRecord.news []))
      rfl⟩

/-- C6: Bundle partial failure — if the options-chain fetch fails while the
price-history and fundamentals fetches succeed, `fetch_all_data` returns a
bundle with `stock_data` and `fundamentals` populated and `options_chain`
absent, the failing category does not abort the bundle, and `is_complete`
depends only on the two mandatory components and reports true. -/
theorem bundle_partial_failure (ticker : String) (now : Int)
    (sd : StockData) (f : Fundamentals) (e : ProviderErr)
    (newsProv : Except ProviderErr (List NewsItem))
    (ratR : Except ProviderErr AnalystRatings) :
    ((DataFetcher.fetch_all_data ticker now (.ok sd) (.ok f) (.error e)
        newsProv ratR).stock_data = some sd ∧
      (DataFetcher.fetch_all_data ticker now (.ok sd) (.ok f) (.error e)
        newsProv ratR).fundamentals = some f ∧
      (DataFetcher.fetch_all_data ticker now (.ok sd) (.ok f) (.error e)
        newsProv ratR).options_chain = none ∧
      (DataFetcher.fetch_all_data ticker now (.ok sd) (.ok f) (.error e)
        newsProv ratR).is_complete = true) ∧
    (∀ md1 md2 : MarketData,
      md1.stock_data.isSome = md2.stock_data.isSome →
      md1.fundamentals.isSome = md2.fundamentals.isSome →
      md1.is_complete = md2.is_complete) := by
  refine ⟨⟨rfl, rfl, rfl, rfl⟩, ?_⟩
  intro md1 md2 h1 h2
  simp [MarketData.is_complete, h1, h2]

/-- Witness for C6 at concrete provider outcomes: a failing options fetch
still yields a bundle that is complete, and two bundles agreeing on the
mandatory components agree on completeness. -/
theorem bundle_partial_failure_witness :
    ((DataFetcher.fetch_all_data "MSFT" 0
      (.ok ⟨"MSFT", 1, 0, ⟨[], [], []⟩, 0, none, none, none⟩)
      (.ok ⟨"MSFT", 0, none, none, none, none, none, none, none, none, none,
        none, none, none, none, none, none, none, none, none, none, none,
        none, none, none, none, none, none, none, none, none, none, none,
        none, none⟩)
      (.error ⟨"no options data"⟩) (.ok [])
      (.error ⟨"no ratings"⟩)).is_complete = true) ∧
    MarketData.is_complete ⟨"A", 0, none, none, none, [], none⟩ =
      MarketData.is_complete ⟨"B", 1, none, none, none, [], none⟩ :=
  ⟨(bundle_partial_failure "MSFT" 0
      ⟨"MSFT", 1, 0, ⟨[], [], []⟩, 0, none, none, none⟩
      ⟨"MSFT", 0, none, none, none, none, none, none, none, none, none,
        none, none, none, none, none, none, none, none, none, none, none,
        none, none, none, none, none, none, none, none, none, none, none,
        none, none⟩
      ⟨"no options data"⟩ (.ok []) (.error ⟨"no ratings"⟩)).1.2.2.2,
   (bundle_partial_failure "MSFT" 0
      ⟨"MSFT", 1, 0, ⟨[], [], []⟩, 0, none, none, none⟩
      ⟨"MSFT", 0, none, none, none, none, none, none, none, none, none,
        none, none, none, none, none, none, none, none, none, none, none,
        none, none, none, none, none, none, none, none, none, none, none,
        none, none⟩
      ⟨"no options data"⟩ (.ok []) (.error ⟨"no ratings"⟩)).2
      ⟨"A", 0, none, none, none, [], none⟩
      ⟨"B", 1, none, none, none, [], none⟩ rfl rfl⟩

/-- C10: `DataFetcher.fetch_news_headlines` never raises — on any provider
error it returns the empty list, so a fetch through the news wrapper can
never observe a propagated provider failure: in every storage mode its
outcome is not a provider error, and whenever neither cache call's
connection-open fails its outcome is `ok`.  This is unlike the other
single-category wrapper operations, which re-raise the collaborator's
error on a cache miss. -/
theorem news_fetch_never_raises :
    (∀ (e : ProviderErr) (m : Nat),
      DataFetcher.fetch_news_headlines (.error e) m = []) ∧
    (∀ (use_cache : Bool) (fGet fDel fSet : StorageFail) (n1 n2 : Int)
      (st : CacheState) (ticker : String)
      (prov : Except ProviderErr (List NewsItem)) (m : Nat)
      (e : ProviderErr),
      (CachedDataFetcher.fetch_news_headlines use_cache fGet fDel fSet n1
        n2 st ticker prov m).1 ≠ .error (.provider e)) ∧
    (∀ (use_cache : Bool) (fGet fDel fSet : StorageFail) (n1 n2 : Int)
      (st : CacheState) (ticker : String)
      (prov : Except ProviderErr (List NewsItem)) (m : Nat),
      fGet ≠ .connectFail → fSet ≠ .connectFail →
      ∃ v, (CachedDataFetcher.fetch_news_headlines use_cache fGet fDel fSet
        n1 n2 st ticker prov m).1 = .ok v) ∧
    (∀ (fGet fDel fSet : StorageFail) (n1 n2 : Int) (st st1 : CacheState)
      (ticker : String) (e : ProviderErr),
      Cache.get fGet fDel n1 st ticker "stock_data" = (.ok none, st1) →
      (CachedDataFetcher.fetch_stock_price_history true fGet fDel fSet n1
        n2 st ticker (.error e)).1 = .error (.provider e)) := by
  refine ⟨fun e m => rfl, ?_, ?_, ?_⟩
  · intro uc fGet fDel fSet n1 n2 st ticker prov m e
    cases uc with
    | false =>
      simp [CachedDataFetcher.fetch_news_headlines,
        CachedDataFetcher.fetchWithCache]
    | true =>
      rcases hg : Cache.get fGet fDel n1 st ticker "news" with ⟨a, st1⟩
      cases a with
      | error se =>
        simp [CachedDataFetcher.fetch_news_headlines,
          CachedDataFetcher.fetchWithCache, hg]
      | ok o =>
        cases o with
        | some v =>
          simp [CachedDataFetcher.fetch_news_headlines,
            CachedDataFetcher.fetchWithCache, hg]
        | none =>
          rcases hs : Cache.set fSet n2 st1 ticker "news"
            (PyObj.record (DataRecord.news
              (DataFetcher.fetch_news_headlines prov m))) none with ⟨b, st2⟩
          cases b with
          | error se =>
            simp [CachedDataFetcher.fetch_news_headlines,
              CachedDataFetcher.fetchWithCache, hg, hs]
          | ok u =>
            simp [CachedDataFetcher.fetch_news_headlines,
              CachedDataFetcher.fetchWithCache, hg, hs]
  · intro uc fGet fDel fSet n1 n2 st ticker prov m hG hS
    cases uc with
    | false =>
      exact ⟨PyObj.record (DataRecord.news
        (DataFetcher.fetch_news_headlines prov m)),
        by simp [CachedDataFetcher.fetch_news_headlines,
          CachedDataFetcher.fetchWithCache]⟩
    | true =>
      rcases hg : Cache.get fGet fDel n1 st ticker "news" with ⟨a, st1⟩
      obtain ⟨o, ho⟩ := get_fst_ok fGet fDel n1 st ticker "news" hG
      rw [hg] at ho
      obtain rfl : a = Except.ok o := ho
      cases o with
      | some v =>
        exact ⟨v, by simp [CachedDataFetcher.fetch_news_headlines,
          CachedDataFetcher.fetchWithCache, hg]⟩
      | none =>
        rcases hs : Cache.set fSet n2 st1 ticker "news"
          (PyObj.record (DataRecord.news
            (DataFetcher.fetch_news_headlines prov m))) none with ⟨b, st2⟩
        have hb := set_fst_ok fSet n2 st1 ticker "news"
          (PyObj.record (DataRecord.news
            (DataFetcher.fetch_news_headlines prov m))) none hS
        rw [hs] at hb
        obtain rfl : b = Except.ok () := hb
        exact ⟨PyObj.record (DataRecord.news
          (DataFetcher.fetch_news_headlines prov m)),
          by simp [CachedDataFetcher.fetch_news_headlines,
            CachedDataFetcher.fetchWithCache, hg, hs]⟩
  · intro fGet fDel fSet n1 n2 st st1 ticker e hget
    simp [CachedDataFetcher.fetch_stock_price_history,
      CachedDataFetcher.fetchWithCache, hget, Except.map]

/-- Witness for C10: on the empty store, the stock-data wrapper propagates
a provider failure, while the news wrapper's outcome is `ok` and is never
a provider error. -/
theorem news_fetch_never_raises_witness :
    DataFetcher.fetch_news_headlines (.error ⟨"provider down"⟩) 20 = [] ∧
    (CachedDataFetcher.fetch_stock_price_history true .ok .ok .ok 0 0 []
      "MSFT" (.error ⟨"provider down"⟩)).1 =
      .error (.provider ⟨"provider down"⟩) ∧
    (∃ v, (CachedDataFetcher.fetch_news_headlines true .ok .ok .ok 0 0 []
      "MSFT" (.error ⟨"provider down"⟩) 20).1 = .ok v) :=
  ⟨news_fetch_never_raises.1 ⟨"provider down"⟩ 20,
   news_fetch_never_raises.2.2.2 .ok .ok .ok 0 0 [] [] "MSFT"
     ⟨"provider down"⟩ rfl,
   news_fetch_never_raises.2.2.1 true .ok .ok .ok 0 0 [] "MSFT"
     (.error ⟨"provider down"⟩) 20 (by decide) (by decide)⟩

/-- C7 counterexample: two distinct (ticker, category) pairs whose keys
collide — the ticker `"A:B"` with category `"c"` and the ticker `"A"` with
category `"B:c"` produce the same key `"A:B:c"`, so the second write
overwrites the first and `get` for the first pair returns the second
pair's record. -/
theorem key_collision_counterexample :
    (("A:B", "c") ≠ (("A" : String), ("B:c" : String))) ∧
    Cache.make_key "A:B" "c" = Cache.make_key "A" "B:c" ∧
    (Cache.get .ok .ok 0
      (Cache.set .ok 0
        (Cache.set .ok 0 [] "A:B" "c"
          (PyObj.record (DataRecord.news [])) (some 10)).2
        "A" "B:c"
        (PyObj.record
          (DataRecord.ratings ⟨"X", 0, 0, 0, 0, 0, 0, none, none, []⟩))
        (some 10)).2
      "A:B" "c").1 =
      .ok (some (PyObj.record
        (DataRecord.ratings ⟨"X", 0, 0, 0, 0, 0, 0, none, none, []⟩))) ∧
    DataRecord.ratings ⟨"X", 0, 0, 0, 0, 0, 0, none, none, []⟩ ≠
      DataRecord.news [] := by
  refine ⟨by decide, rfl, rfl, by simp⟩

/-- C7 (amended): writes use the key `"{TICKER_UPPERCASE}:{category}"`;
for pairs whose normalized tickers contain no colon, distinct normalized
pairs map to distinct keys, so a write to one never affects a read of the
other (tickers containing a colon can collide, as the counterexample
shows); ticker case is normalized, a write preserves the one-row-per-key
invariant, and `get "aapl"` returns the value written by
`set "AAPL"`. -/
theorem key_isolation_amended (t1 c1 t2 c2 : String)
    (h1 : ':' ∉ (pyUpper t1).data) (h2 : ':' ∉ (pyUpper t2).data)
    (hne : ¬(pyUpper t1 = pyUpper t2 ∧ c1 = c2)) :
    Cache.make_key t1 c1 ≠ Cache.make_key t2 c2 ∧
    (∀ (f fdel f2 : StorageFail) (now ts : Int) (st : CacheState)
      (d : PyObj) (eo : Option Int),
      (Cache.get f fdel now (Cache.set f2 ts st t2 c2 d eo).2 t1 c1).1 =
      (Cache.get f fdel now st t1 c1).1) ∧
    (∀ (t3 t4 c : String), pyUpper t3 = pyUpper t4 →
      Cache.make_key t3 c = Cache.make_key t4 c) ∧
    (∀ (f : StorageFail) (now : Int) (st : CacheState) (tk dt : String)
      (d : PyObj) (eo : Option Int), keysUnique st →
      keysUnique (Cache.set f now st tk dt d eo).2) ∧
    (∀ (st : CacheState) (t0 T now : Int) (r : DataRecord), now ≤ t0 + T →
      (Cache.get .ok .ok now
        (Cache.set .ok t0 st "AAPL" "price" (PyObj.record r) (some T)).2
        "aapl" "price").1 = .ok (some (PyObj.record r))) := by
  have hkne : Cache.make_key t1 c1 ≠ Cache.make_key t2 c2 :=
    fun h => hne (make_key_inj t1 c1 t2 c2 h1 h2 h)
  refine ⟨hkne, ?_, ?_, ?_, ?_⟩
  · intro f fdel f2 now ts st d eo
    apply get_fst_eq_of_lookup_eq
    exact dbLookup_set_snd_ne f2 ts st t2 c2 d eo _ hkne
  · intro t3 t4 c h
    simp [Cache.make_key, h]
  · intro f now st tk dt d eo h
    exact keysUnique_set f now st tk dt d eo h
  · intro st t0 T now r h
    have hlook : dbLookup
        (Cache.set .ok t0 st "AAPL" "price" (PyObj.record r) (some T)).2
        (Cache.make_key "aapl" "price") =
        some ⟨encRecord r, "price", t0, T⟩ := by
      rw [set_record_eq,
        show Cache.make_key "aapl" "price" = Cache.make_key "AAPL" "price"
          from rfl]
      simpa using dbLookup_insertOrReplace_self st
        (Cache.make_key "AAPL" "price") _
    simp [Cache.get, hlook, is_expired_false h, loads_encRecord]

/-- Witness for C7 (amended) at concrete colon-free tickers: `AAPL:price`
and `AAPL:news` are distinct keys, case-normalized tickers share a key,
and a `get "aapl"` at time 5 sees the value `set "AAPL"` wrote at time 0
with a 10 second TTL. -/
theorem key_isolation_amended_witness :
    Cache.make_key "AAPL" "price" ≠ Cache.make_key "AAPL" "news" ∧
    Cache.make_key "aapl" "x" = Cache.make_key "AAPL" "x" ∧
    (Cache.get .ok .ok 5
      (Cache.set .ok 0 [] "AAPL" "price"
        (PyObj.record (DataRecord.news [])) (some 10)).2
      "aapl" "price").1 = .ok (some (PyObj.record (DataRecord.news []))) :=
  ⟨(key_isolation_amended "AAPL" "price" "AAPL" "news" (by decide)
      (by decide) (by decide)).1,
   (key_isolation_amended "AAPL" "price" "AAPL" "news" (by decide)
      (by decide) (by decide)).2.2.1 "aapl" "AAPL" "x" (by decide),
   (key_isolation_amended "AAPL" "price" "AAPL" "news" (by decide)
      (by decide) (by decide)).2.2.2.2 [] 0 10 5 (DataRecord.news [])
     (by decide)⟩

/-- C8 counterexample: a store holding exactly one row that is expired at
time 5 — the sweep removes the row (one row was removed) but the
operation's caller-visible value is `None`, not the count `1`. -/
theorem clear_expired_returns_none_counterexample :
    (Cache.set .ok 0 [] "T" "price" (PyObj.record (DataRecord.news []))
      (some 1)).2.length = 1 ∧
    Cache.clear_expired .ok 5
      (Cache.set .ok 0 [] "T" "price" (PyObj.record (DataRecord.news []))
        (some 1)).2 = (.ok none, []) ∧
    (Except.ok (none : Option Nat) : Except StorageErr (Option Nat)) ≠
      .ok (some 1) := by
  exact ⟨rfl, rfl, by simp⟩

/-- C8 (amended): the sweep operation scans all rows, removes exactly those
rows that are expired at the current time and leaves all unexpired rows in
place; it computes (and logs) the count of rows removed but returns `None`
rather than the count. -/
theorem clear_expired_amended (now : Int) (st : CacheState)
    (h : keysUnique st) :
    Cache.clear_expired .ok now st =
      (.ok none, st.filter (fun r =>
        !(Cache.is_expired now r.2.timestamp r.2.expiry_seconds))) ∧
    (st.filter (fun r =>
        !(Cache.is_expired now r.2.timestamp r.2.expiry_seconds))).length +
      st.countP (fun r =>
        Cache.is_expired now r.2.timestamp r.2.expiry_seconds) =
      st.length :=
  ⟨clear_expired_eq_filter now st h,
   filter_not_length_add_countP _ st⟩

/-- Witness for C8 (amended) on a concrete two-row store at time 5: the
row with a 1 second TTL is removed, the row with a 100 second TTL stays,
and the operation returns `None`. -/
theorem clear_expired_amended_witness :
    Cache.clear_expired .ok 5
      (Cache.set .ok 0
        (Cache.set .ok 0 [] "T" "price"
          (PyObj.record (DataRecord.news [])) (some 1)).2
        "T" "news" (PyObj.record (DataRecord.news [])) (some 100)).2 =
      (.ok none,
        ((Cache.set .ok 0
          (Cache.set .ok 0 [] "T" "price"
            (PyObj.record (DataRecord.news [])) (some 1)).2
          "T" "news" (PyObj.record (DataRecord.news []))
          (some 100)).2).filter
          (fun r => !(Cache.is_expired 5 r.2.timestamp
            r.2.expiry_seconds))) :=
  (clear_expired_amended 5
    (Cache.set .ok 0
      (Cache.set .ok 0 [] "T" "price"
        (PyObj.record (DataRecord.news [])) (some 1)).2
      "T" "news" (PyObj.record (DataRecord.news [])) (some 100)).2
    (by simp only [keysUnique]; decide)).1
